import Mathlib

/-!
Verification of the backpack logging core (src/backpack/src/logging).

Shallow embedding of the modern revision of the library: the Verbosity and
LogFormat enums (internal/enums.rs), the FormatLogger trait with its
quiet/verbose suppression policy (loggers/format.rs) and its two concrete
formatters (loggers/simple.rs, loggers/modern.rs), the Printer dispatcher
(printers/mod.rs), its JSON and text field emission (printers/json.rs), the
task tree dump (printers/task_tree.rs), duration formatting
(internal/utils.rs), the Drop-based structured event builder
(fields/events.rs) and the progress handle (progress/mod.rs).

Rust side effects are modelled as explicit emission traces; instants are
natural numbers of nanoseconds; the clock readings that the code takes
(Instant::now, chrono::Utc::now) are parameters of the operations.  The
render backend is the baseline SimpleBackend (backends/simple.rs), whose
stream routing is baked into Emission.stream, and the tracing subscriber is
the one registered by logging::init (logging/mod.rs): a fmt layer writing to
stderr filtered at LevelFilter::TRACE, so every tracing macro call that the
dispatcher reaches is emitted to stderr.
-/

namespace LogRs

/-- Cargo-style verbosity levels (internal/enums.rs). -/
inductive Verbosity
  | quiet
  | normal
  | verbose
  | trace
deriving DecidableEq, Repr

/-- Output format for the logger (internal/enums.rs). -/
inductive LogFormat
  | text
  | json
deriving DecidableEq, Repr

/-- Log levels (fields/levels.rs). -/
inductive LogLevel
  | info
  | warn
  | error
  | debug
  | trace
deriving DecidableEq, Repr

/-- LogLevel::as_str (fields/levels.rs). -/
def LogLevel.asStr : LogLevel → String
  | .info => "info"
  | .warn => "warn"
  | .error => "error"
  | .debug => "debug"
  | .trace => "trace"

/-- The process-wide quiet flag as Printer::new sets it from the verbosity
(printers/mod.rs, config::setquiet calls). -/
def isquiet : Verbosity → Bool
  | .quiet => true
  | _ => false

/-- The process-wide verbose flag as Printer::new sets it from the verbosity
(printers/mod.rs, config::setverbose calls). -/
def isverbose : Verbosity → Bool
  | .verbose => true
  | .trace => true
  | _ => false

/-- Timestamp mode of the printer (TimestampMode in the logging module):
real clock, disabled (deterministic/test mode), or a fixed value. -/
inductive TimestampMode
  | real
  | disabled
  | fixed (value : String)
deriving DecidableEq, Repr

/-- The two output streams. -/
inductive Stream
  | stdout
  | stderr
deriving DecidableEq, Repr

/-- Lexicographic strict comparison of character lists: the Ord used by
BTreeMap<String, _>. -/
def keyLtGo : List Char → List Char → Bool
  | [], [] => false
  | [], _ :: _ => true
  | _ :: _, [] => false
  | c :: cs, d :: ds => if c < d then true else if d < c then false else keyLtGo cs ds

/-- Lexicographic strict comparison of string keys. -/
def keyLt (a b : String) : Bool := keyLtGo a.data b.data

/-- Insertion into a key-sorted association list: the semantics of
BTreeMap::insert / serde_json object member assignment (later insert of an
existing key overwrites). -/
def mapInsert {α : Type} : List (String × α) → String → α → List (String × α)
  | [], k, v => [(k, v)]
  | (q, w) :: rest, k, v =>
    if keyLt k q then (k, v) :: (q, w) :: rest
    else if k = q then (k, v) :: rest
    else (q, w) :: mapInsert rest k v

/-- Structured fields attached to a log event: Fields = BTreeMap<String, String>
(fields/events.rs), modelled as a key-sorted association list. -/
abbrev Fields := List (String × String)

/-- Fields::insert. -/
def Fields.insert (f : Fields) (k v : String) : Fields := mapInsert f k v

/-- A JSON value occurring in an emitted log line: a string, or the one-level
string map nested under the fields key. -/
inductive JsonVal
  | str (s : String)
  | obj (kvs : List (String × String))
deriving DecidableEq, Repr

/-- A serde_json object: Value::Object is a BTreeMap, so a key-sorted
association list. -/
abbrev JsonObj := List (String × JsonVal)

/-- The timestamp member assignment of emit_json_fields (printers/json.rs
19-30): a member for the real clock reading or the fixed value, nothing when
disabled. -/
def tsAugment (ts : TimestampMode) (now : String) (obj : JsonObj) : JsonObj :=
  match ts with
  | .real => mapInsert obj "timestamp" (.str now)
  | .disabled => obj
  | .fixed value => mapInsert obj "timestamp" (.str value)

/-- The fields member assignment of emit_json_fields (printers/json.rs
32-36): only when a fields map is passed and it is non-empty. -/
def fieldsAugment (fields : Option Fields) (obj : JsonObj) : JsonObj :=
  match fields with
  | some f => if f.isEmpty then obj else mapInsert obj "fields" (.obj f)
  | none => obj

/-- The JSON object built by Printer::emit_json_fields (printers/json.rs
13-42): level and message always, then the timestamp member per the
timestamp mode (the clock reading is the parameter now), then the fields
member when a non-empty map is attached. -/
def emitJsonObj (ts : TimestampMode) (now : String) (level : LogLevel)
    (message : String) (fields : Option Fields) : JsonObj :=
  fieldsAugment fields (tsAugment ts now
    (mapInsert (mapInsert [] "level" (.str level.asStr)) "message" (.str message)))

/-- Stream routing of Printer::emit_json_fields: error lines go to stderr via
eprintln, everything else to stdout via println (printers/json.rs 38-41). -/
def jsonStream (level : LogLevel) : Stream :=
  if level = .error then .stderr else .stdout

/-- Lower-case hexadecimal digits, for the \u escapes of control characters. -/
def hexDigits : List Char := "0123456789abcdef".data

/-- One hexadecimal digit. -/
def hexDigit (n : Nat) : Char := hexDigits.getD n '0'

/-- serde_json escaping of one character inside a JSON string literal. -/
def escChar (c : Char) : String :=
  if c = '"' then "\\\""
  else if c = '\\' then "\\\\"
  else if c = '\n' then "\\n"
  else if c = '\r' then "\\r"
  else if c = '\t' then "\\t"
  else if c.toNat < 32 then
    "\\u00" ++ String.singleton (hexDigit (c.toNat / 16))
      ++ String.singleton (hexDigit (c.toNat % 16))
  else String.singleton c

/-- Concatenation of a list of strings. -/
def concatStrs : List String → String
  | [] => ""
  | x :: xs => x ++ concatStrs xs

/-- serde_json escaping of a whole string. -/
def escStr (s : String) : String := concatStrs (s.data.map escChar)

/-- A JSON string literal. -/
def renderStr (s : String) : String := "\"" ++ escStr s ++ "\""

/-- Separator-joined concatenation, as serde_json joins object members with
commas. -/
def joinSep (sep : String) : List String → String
  | [] => ""
  | [x] => x
  | x :: y :: xs => x ++ sep ++ joinSep sep (y :: xs)

/-- Compact rendering of a string-to-string JSON object. -/
def renderKVs (kvs : List (String × String)) : String :=
  "\x7b" ++ joinSep "," (kvs.map fun p => renderStr p.1 ++ ":" ++ renderStr p.2) ++ "\x7d"

/-- Compact rendering of a JSON value. -/
def renderVal : JsonVal → String
  | .str s => renderStr s
  | .obj kvs => renderKVs kvs

/-- Compact rendering of an emitted JSON log object, as serde_json Display
writes it on a single println line. -/
def renderObj (obj : JsonObj) : String :=
  "\x7b" ++ joinSep "," (obj.map fun p => renderStr p.1 ++ ":" ++ renderVal p.2) ++ "\x7d"

/-- No raw newline character occurs in the string: printed with println, it
occupies exactly one line. -/
def noNL (s : String) : Prop := '\n' ∉ s.data

instance noNLDec (s : String) : Decidable (noNL s) :=
  inferInstanceAs (Decidable ('\n' ∉ s.data))

/-- The FormatLogger trait (loggers/format.rs): the raw formatting methods a
concrete formatter implements.  Formatting is pure string construction. -/
structure FormatLogger where
  ok_raw : String → String
  warn_raw : String → String
  err_raw : String → String
  info_raw : String → String
  dim_raw : String → String
  intro_raw : String → String
  outro_raw : String → String
  done_raw : String
  step_raw : String → String
  debug_raw : String → String
  trace_raw : String → String

/-- FormatLogger::ok (loggers/format.rs): suppressed in quiet mode.  The
is_quiet flag the trait samples is the process-wide one Printer::new derived
from the verbosity, so it is passed here as the verbosity. -/
def FormatLogger.ok (L : FormatLogger) (v : Verbosity) (m : String) : Option String :=
  if isquiet v then none else some (L.ok_raw m)

/-- FormatLogger::warn: suppressed in quiet mode. -/
def FormatLogger.warn (L : FormatLogger) (v : Verbosity) (m : String) : Option String :=
  if isquiet v then none else some (L.warn_raw m)

/-- FormatLogger::err: never suppressed (loggers/format.rs 41-43). -/
def FormatLogger.err (L : FormatLogger) (m : String) : String := L.err_raw m

/-- FormatLogger::info: suppressed in quiet mode. -/
def FormatLogger.info (L : FormatLogger) (v : Verbosity) (m : String) : Option String :=
  if isquiet v then none else some (L.info_raw m)

/-- FormatLogger::dim: suppressed in quiet mode. -/
def FormatLogger.dim (L : FormatLogger) (v : Verbosity) (m : String) : Option String :=
  if isquiet v then none else some (L.dim_raw m)

/-- FormatLogger::intro: suppressed in quiet mode. -/
def FormatLogger.intro (L : FormatLogger) (v : Verbosity) (m : String) : Option String :=
  if isquiet v then none else some (L.intro_raw m)

/-- FormatLogger::outro: not suppressed in quiet mode, so that quiet builds
still show timing summaries (loggers/format.rs 69-74). -/
def FormatLogger.outro (L : FormatLogger) (_v : Verbosity) (m : String) : Option String :=
  some (L.outro_raw m)

/-- FormatLogger::done: not suppressed in quiet mode, same as outro. -/
def FormatLogger.done (L : FormatLogger) (_v : Verbosity) : Option String :=
  some L.done_raw

/-- FormatLogger::step: suppressed in quiet mode. -/
def FormatLogger.step (L : FormatLogger) (v : Verbosity) (m : String) : Option String :=
  if isquiet v then none else some (L.step_raw m)

/-- FormatLogger::debug: emitted only when verbose mode is active. -/
def FormatLogger.debug (L : FormatLogger) (v : Verbosity) (m : String) : Option String :=
  if isverbose v then some (L.debug_raw m) else none

/-- FormatLogger::trace: emitted only when verbose mode is active
(loggers/format.rs 96-102). -/
def FormatLogger.trace (L : FormatLogger) (v : Verbosity) (m : String) : Option String :=
  if isverbose v then some (L.trace_raw m) else none

/-- SimpleLogger (loggers/simple.rs), parameterized by the process-wide
nocolor flag it samples through config::isnocolor. -/
def SimpleLogger (nocolor : Bool) : FormatLogger where
  ok_raw m := if nocolor then "+ " ++ m else "\x1b[32m✔\x1b[0m " ++ m
  warn_raw m := if nocolor then "! " ++ m else "\x1b[33m⚠\x1b[0m " ++ m
  err_raw m := if nocolor then "X " ++ m else "\x1b[31m✗\x1b[0m " ++ m
  info_raw m := "  " ++ m
  dim_raw m := if nocolor then "  " ++ m else "\x1b[90m  " ++ m ++ "\x1b[0m"
  intro_raw m := "→ " ++ m
  outro_raw m := "✓ " ++ m
  done_raw := "✓ Done!"
  step_raw m := if nocolor then "* " ++ m else "\x1b[36m⠿\x1b[0m " ++ m
  debug_raw m := if nocolor then "[debug] " ++ m else "\x1b[34m[debug]\x1b[0m " ++ m
  trace_raw m := if nocolor then "[trace] " ++ m else "\x1b[90m[trace]\x1b[0m " ++ m

/-- ModernLogger (loggers/modern.rs). -/
def ModernLogger : FormatLogger where
  ok_raw m := "✔ " ++ m
  warn_raw m := "⚠ " ++ m
  err_raw m := "✗ " ++ m
  info_raw m := "ℹ " ++ m
  dim_raw m := "› " ++ m
  intro_raw m := "→ " ++ m
  outro_raw m := "✔ " ++ m
  done_raw := "✔ Done!"
  step_raw m := "⠿ " ++ m
  debug_raw m := "🔍 " ++ m
  trace_raw m := "📡 " ++ m

/-- The render methods of the RenderBackend trait (backends/mod.rs). -/
inductive RenderKind
  | error
  | info
  | remark
  | step
  | success
  | warning
  | intro
  | outro
  | debug
  | trace
deriving DecidableEq, Repr

/-- Stream routing of the baseline SimpleBackend (backends/simple.rs):
render_error, render_debug and render_trace use eprintln, everything else
println. -/
def RenderKind.stream : RenderKind → Stream
  | .error => .stderr
  | .debug => .stderr
  | .trace => .stderr
  | _ => .stdout

/-- One observable output action of the dispatcher. -/
inductive Emission
  /-- A SimpleBackend render_* call with its formatted string. -/
  | render (k : RenderKind) (msg : String)
  /-- A SimpleBackend render_progress call (backends/simple.rs). -/
  | renderProgress (label : String) (current : Nat) (total : Option Nat) (finished : Bool)
  /-- A tracing macro event; the subscriber registered by logging::init
  (logging/mod.rs) writes every level to stderr (fmt layer filtered at
  LevelFilter::TRACE). -/
  | tracingLine (msg : String)
  /-- A JSON log line written by emit_json_fields. -/
  | jsonLine (s : Stream) (obj : JsonObj)
  /-- A direct println line (dump_task_tree). -/
  | plainLine (msg : String)
  /-- The Json branch of Printer::progress (printers/mod.rs 286-299): it
  builds a fields map it never uses and calls emit_json with the Progress
  level, which fields/levels.rs does not declare; kept abstract here. -/
  | progressJson (label : String)
deriving DecidableEq, Repr

/-- The stream an emission reaches. -/
def Emission.stream : Emission → Stream
  | .render k _ => k.stream
  | .renderProgress _ _ _ _ => .stdout
  | .tracingLine _ => .stderr
  | .jsonLine s _ => s
  | .plainLine _ => .stdout
  | .progressJson _ => .stdout

/-- Whether an emission textually carries the caller's message m: render and
tracing lines contain m as a substring of their payload, JSON lines contain
it in their message member. -/
def Emission.mentions (e : Emission) (m : String) : Prop :=
  match e with
  | .render _ s => ∃ p q, s = p ++ m ++ q
  | .tracingLine s => ∃ p q, s = p ++ m ++ q
  | .jsonLine _ obj => ∃ s p q, obj.lookup "message" = some (.str s) ∧ s = p ++ m ++ q
  | _ => False

/-- Recognizes a render_outro backend call, the observable part of a task
closure in text mode. -/
def isOutroRender : Emission → Bool
  | .render .outro _ => true
  | _ => false

/-- Duration::as_secs of a duration in nanoseconds. -/
def durSecs (ns : Nat) : Nat := ns / 1000000000

/-- Duration::as_millis of a duration in nanoseconds. -/
def durMillis (ns : Nat) : Nat := ns / 1000000

/-- Display of as_secs_f64 under the {:.1} float format, modelled by exact
decimal rounding of the nanosecond value to one decimal place (ties, which
for the float formatter depend on the binary representation, are rounded
up here). -/
def secs1dp (ns : Nat) : String :=
  toString ((ns + 50000000) / 100000000 / 10) ++ "."
    ++ toString ((ns + 50000000) / 100000000 % 10)

/-- format_duration (internal/utils.rs 1-8): seconds to one decimal place
when the duration is at least one second, whole milliseconds otherwise. -/
def formatDuration (ns : Nat) : String :=
  if durSecs ns > 0 then secs1dp ns ++ "s"
  else toString (durMillis ns) ++ "ms"

/-- A TimedSpan task record (printers/mod.rs 10-15): the label passed to
intro and the Instant at which it was pushed (the tracing span handle
carries no further observable state). -/
structure TimedSpan where
  start : Nat
  label : String
deriving DecidableEq, Repr

/-- The mutable stacks of the Printer: tasks (Vec<TimedSpan>) and steps; the
head of each list is the most recently pushed entry (the end of the Rust
Vec).  Step spans carry only their message. -/
structure PrinterState where
  tasks : List TimedSpan
  steps : List String
deriving DecidableEq, Repr

/-- The Printer dispatcher configuration (printers/mod.rs 19-27): formatter,
output format, verbosity and timestamp mode, all fixed at construction.
The backend is the baseline SimpleBackend, folded into Emission.stream. -/
structure Printer where
  inner : FormatLogger
  format : LogFormat
  verbosity : Verbosity
  timestamp : TimestampMode

/-- Printer::emit_json / emit_json_fields as a single emission. -/
def Printer.emitJson (P : Printer) (now : String) (level : LogLevel)
    (msg : String) (fields : Option Fields) : Emission :=
  .jsonLine (jsonStream level) (emitJsonObj P.timestamp now level msg fields)

/-- The dim-styled key=value rendering of one field pair
(printers/json.rs 57). -/
def dimKV (k v : String) : String := "\x1b[2m" ++ k ++ "=" ++ v ++ "\x1b[0m"

/-- The message with fields appended, as emit_text_fields formats it
(printers/json.rs 52-63): key=value pairs, dim-styled, space-joined in the
iteration order of the fields map, or the bare message when there are no
fields. -/
def withTextFields (msg : String) (fields : Option Fields) : String :=
  match fields with
  | some f =>
    if f.isEmpty then msg
    else msg ++ " " ++ joinSep " " (f.map fun p => dimKV p.1 p.2)
  | none => msg

/-- Printer::emit_text_fields (printers/json.rs 51-100): formats the message
with fields and dispatches per level through the formatter and backend;
debug requires verbose or trace verbosity, trace requires exactly trace
verbosity. -/
def Printer.emitTextFields (P : Printer) (level : LogLevel) (msg : String)
    (fields : Option Fields) : List Emission :=
  let fm := withTextFields msg fields
  match level with
  | .info =>
    match P.inner.info P.verbosity fm with
    | some s => [.render .info s]
    | none => []
  | .warn =>
    match P.inner.warn P.verbosity fm with
    | some s => [.render .warning s]
    | none => []
  | .error => [.render .error (P.inner.err fm)]
  | .debug =>
    if P.verbosity = .verbose ∨ P.verbosity = .trace then
      match P.inner.debug P.verbosity fm with
      | some s => [.render .debug s]
      | none => []
    else []
  | .trace =>
    if P.verbosity = .trace then
      match P.inner.trace P.verbosity fm with
      | some s => [.render .trace s]
      | none => []
    else []

/-- Printer::emit_event (printers/json.rs 106-111): the unified structured
emission used by LogEvent. -/
def Printer.emitEvent (P : Printer) (now : String) (level : LogLevel)
    (msg : String) (fields : Fields) : List Emission :=
  match P.format with
  | .json => [P.emitJson now level msg (some fields)]
  | .text => P.emitTextFields level msg (some fields)

/-- Printer::ok (printers/mod.rs 195-204): Json emits an info JSON line,
Text renders through render_success. -/
def Printer.ok (P : Printer) (now : String) (m : String) : List Emission :=
  match P.inner.ok P.verbosity m with
  | none => []
  | some s =>
    match P.format with
    | .json => [P.emitJson now .info s none]
    | .text => [.render .success s]

/-- Printer::warn (printers/mod.rs 206-216): Text renders through
render_warning and also fires the warn tracing macro. -/
def Printer.warn (P : Printer) (now : String) (m : String) : List Emission :=
  match P.inner.warn P.verbosity m with
  | none => []
  | some s =>
    match P.format with
    | .json => [P.emitJson now .warn s none]
    | .text => [.render .warning s, .tracingLine s]

/-- Printer::err (printers/mod.rs 225-235): never suppressed; Json emits an
error JSON line (stderr), Text renders through render_error (stderr) and
fires the error tracing macro. -/
def Printer.err (P : Printer) (now : String) (m : String) : List Emission :=
  let s := P.inner.err m
  match P.format with
  | .json => [P.emitJson now .error s none]
  | .text => [.render .error s, .tracingLine s]

/-- Printer::info (printers/mod.rs 237-246). -/
def Printer.info (P : Printer) (now : String) (m : String) : List Emission :=
  match P.inner.info P.verbosity m with
  | none => []
  | some s =>
    match P.format with
    | .json => [P.emitJson now .info s none]
    | .text => [.render .info s]

/-- Printer::dim (printers/mod.rs 248-257): Json emits at debug level, Text
renders through render_remark. -/
def Printer.dim (P : Printer) (now : String) (m : String) : List Emission :=
  match P.inner.dim P.verbosity m with
  | none => []
  | some s =>
    match P.format with
    | .json => [P.emitJson now .debug s none]
    | .text => [.render .remark s]

/-- Printer::debug (printers/mod.rs 259-268): formatter-gated on verbose
mode; Text fires only the debug tracing macro. -/
def Printer.debug (P : Printer) (now : String) (m : String) : List Emission :=
  match P.inner.debug P.verbosity m with
  | none => []
  | some s =>
    match P.format with
    | .json => [P.emitJson now .debug s none]
    | .text => [.tracingLine s]

/-- Printer::trace (printers/mod.rs 270-279): formatter-gated on verbose
mode; Text fires only the trace tracing macro. -/
def Printer.trace (P : Printer) (now : String) (m : String) : List Emission :=
  match P.inner.trace P.verbosity m with
  | none => []
  | some s =>
    match P.format with
    | .json => [P.emitJson now .trace s none]
    | .text => [.tracingLine s]

/-- Printer::intro (printers/mod.rs 70-90): the formatted message is emitted
unless suppressed (an info tracing event is added in verbose mode), and a
TimedSpan for the raw message is pushed onto the task stack unconditionally,
outside the suppression guard.  nowI is the Instant::now reading, nowTs the
timestamp-clock reading. -/
def Printer.intro (P : Printer) (nowI : Nat) (nowTs : String) (m : String)
    (st : PrinterState) : List Emission × PrinterState :=
  let out :=
    match P.inner.intro P.verbosity m with
    | none => []
    | some s =>
      match P.format with
      | .json => [P.emitJson nowTs .info s none]
      | .text =>
        .render .intro s :: (if isverbose P.verbosity then [.tracingLine s] else [])
  (out, { st with tasks := ⟨nowI, m⟩ :: st.tasks })

/-- The Text branch shared verbatim by Printer::outro and Printer::done
(printers/mod.rs 98-135 and 139-176, non-test path): clear the step stack,
pop the task stack, append the timing suffix when the elapsed milliseconds
are non-zero, render through render_outro and fire an info tracing event in
verbose mode. -/
def Printer.closeTaskText (P : Printer) (nowI : Nat) (s : String)
    (st : PrinterState) : List Emission × PrinterState :=
  match st.tasks with
  | [] =>
    (.render .outro s :: (if isverbose P.verbosity then [.tracingLine s] else []),
      { st with steps := [] })
  | t :: rest =>
    let e := nowI - t.start
    let msg := if durMillis e > 0 then s ++ " (took " ++ formatDuration e ++ ")" else s
    (.render .outro msg :: (if isverbose P.verbosity then [.tracingLine msg] else []),
      { tasks := rest, steps := [] })

/-- Printer::outro (printers/mod.rs 92-136): the formatter never suppresses
outro; Json emits an info JSON line and leaves the stacks untouched, Text
closes a task. -/
def Printer.outro (P : Printer) (nowI : Nat) (nowTs : String) (m : String)
    (st : PrinterState) : List Emission × PrinterState :=
  match P.inner.outro P.verbosity m with
  | none => ([], st)
  | some s =>
    match P.format with
    | .json => ([P.emitJson nowTs .info s none], st)
    | .text => P.closeTaskText nowI s st

/-- Printer::done (printers/mod.rs 138-177): identical to outro with the
formatter's done message. -/
def Printer.done (P : Printer) (nowI : Nat) (nowTs : String)
    (st : PrinterState) : List Emission × PrinterState :=
  match P.inner.done P.verbosity with
  | none => ([], st)
  | some s =>
    match P.format with
    | .json => ([P.emitJson nowTs .info s none], st)
    | .text => P.closeTaskText nowI s st

/-- Printer::step (printers/mod.rs 179-196): Text renders through
render_step and, only in verbose mode, pushes a step span and fires an info
tracing event; Json emits an info JSON line and never touches the stack. -/
def Printer.step (P : Printer) (nowTs : String) (m : String)
    (st : PrinterState) : List Emission × PrinterState :=
  match P.inner.step P.verbosity m with
  | none => ([], st)
  | some s =>
    match P.format with
    | .json => ([P.emitJson nowTs .info s none], st)
    | .text =>
      if isverbose P.verbosity then
        ([.render .step s, .tracingLine s], { st with steps := m :: st.steps })
      else ([.render .step s], st)

/-- The numbered per-task lines of the task tree dump; the Rust loop walks
the Vec from its bottom (oldest task) up. -/
def taskTreeLines (nowI : Nat) (tasks : List TimedSpan) : List Emission :=
  ((List.range tasks.length).zip tasks).map fun it =>
    .plainLine ("  " ++ toString (it.1 + 1) ++ ". " ++ it.2.label
      ++ " (started, +" ++ formatDuration (nowI - it.2.start) ++ ")")

/-- Printer::dump_task_tree (printers/task_tree.rs 7-24): nothing unless
verbose mode; an empty task stack prints "(no active tasks)"; otherwise a
header plus one line per open task. -/
def Printer.dumpTaskTree (P : Printer) (nowI : Nat) (st : PrinterState) :
    List Emission :=
  if isverbose P.verbosity = false then []
  else if st.tasks.isEmpty then [.plainLine "(no active tasks)"]
  else .plainLine "Active tasks:" :: taskTreeLines nowI st.tasks.reverse

/-- Printer::progress (printers/mod.rs 285-306): Text calls the backend's
render_progress with the full tuple; Json calls emit_json with the Progress
level (its fields map is built and dropped unused). -/
def Printer.progress (P : Printer) (label : String) (current : Nat)
    (total : Option Nat) (finished : Bool) : List Emission :=
  match P.format with
  | .json => [.progressJson label]
  | .text => [.renderProgress label current total finished]

/-- A value passed to LogEvent::field; the Rust generic is stringified via
ToString at insertion (fields/events.rs 32-35). -/
inductive FieldValue
  | str (s : String)
  | nat (n : Nat)
  | int (i : Int)
  | bool (b : Bool)
deriving DecidableEq, Repr

/-- Rust ToString for the supported field value shapes. -/
def FieldValue.toStr : FieldValue → String
  | .str s => s
  | .nat n => toString n
  | .int i => toString i
  | .bool b => if b then "true" else "false"

/-- The structured event builder LogEvent (fields/events.rs 11-29), minus
its printer reference: level, message, accumulated fields and the
emitted flag. -/
structure LogEvent where
  level : LogLevel
  message : String
  fields : Fields
  emitted : Bool
deriving DecidableEq, Repr

/-- LogEvent::new (fields/events.rs 20-29). -/
def LogEvent.new (level : LogLevel) (msg : String) : LogEvent :=
  ⟨level, msg, [], false⟩

/-- LogEvent::field (fields/events.rs 32-35): stringify and insert. -/
def LogEvent.field (e : LogEvent) (k : String) (v : FieldValue) : LogEvent :=
  { e with fields := e.fields.insert k v.toStr }

/-- One call to Printer::emit_event as triggered by a LogEvent. -/
structure EmitCall where
  level : LogLevel
  message : String
  fields : Fields
deriving DecidableEq, Repr

/-- LogEvent::emit (fields/events.rs 51-57): emit unless the emitted flag is
set, then set it.  Returns the emit_event calls made and the event as the
Rust drop glue then sees it. -/
def LogEvent.emitCalls (e : LogEvent) : List EmitCall × LogEvent :=
  if e.emitted then ([], e)
  else ([⟨e.level, e.message, e.fields⟩], { e with emitted := true })

/-- Drop::drop for LogEvent (fields/events.rs 60-72): a no-op when already
emitted, otherwise one emit_event call with the taken fields. -/
def LogEvent.dropCalls (e : LogEvent) : List EmitCall :=
  if e.emitted then [] else [⟨e.level, e.message, e.fields⟩]

/-- The progress handle (progress/mod.rs 4-9). -/
structure Progress where
  label : String
  total : Option Nat
  current : Nat
  finished : Bool
deriving DecidableEq, Repr

/-- Progress::finish (progress/mod.rs 57-70): guarded by the finished flag
(which ownership makes unreachable as true), it emits the final progress
notification with finished set and msg as the label, then calls outro(msg)
and then done() through the global dispatcher, here passed explicitly. -/
def Progress.finish (p : Progress) (P : Printer) (nowI : Nat) (nowTs : String)
    (msg : String) (st : PrinterState) : List Emission × PrinterState :=
  if p.finished then ([], st)
  else
    let e1 := P.progress msg p.current p.total true
    let r2 := P.outro nowI nowTs msg st
    let r3 := P.done nowI nowTs r2.2
    (e1 ++ r2.1 ++ r3.1, r3.2)

/-- The stack scenario of testable property 7: intro a, intro b,
outro b-done, outro a-done, returning the final printer state. -/
def scenarioStacks (P : Printer) (t1 t2 t3 t4 : Nat) (nowTs : String)
    (st0 : PrinterState) : PrinterState :=
  ((P.outro t4 nowTs "a-done"
    ((P.outro t3 nowTs "b-done"
      ((P.intro t2 nowTs "b" ((P.intro t1 nowTs "a" st0).2)).2)).2)).2)

/-! ## Helper lemmas -/

theorem strAppendEmpty (s : String) : s ++ "" = s := by
  cases s with
  | mk d => show String.mk (d ++ []) = String.mk d; rw [List.append_nil]

theorem dataAppend (a b : String) : (a ++ b).data = a.data ++ b.data := by
  cases a; cases b; rfl

theorem keyLtGo_asymm : ∀ as bs, keyLtGo as bs = true → keyLtGo bs as = false := by
  intro as
  induction as with
  | nil => intro bs h; cases bs <;> simp_all [keyLtGo]
  | cons c cs ih =>
    intro bs h
    cases bs with
    | nil => simp [keyLtGo] at h
    | cons d ds =>
      simp only [keyLtGo] at h ⊢
      rcases lt_trichotomy c d with hcd | hcd | hcd
      · simp [hcd, not_lt_of_gt hcd]
      · subst hcd
        simp only [lt_irrefl, if_false] at h ⊢
        exact ih ds h
      · simp [hcd, not_lt_of_gt hcd] at h

theorem keyLtGo_ne : ∀ as bs, keyLtGo as bs = true → as ≠ bs := by
  intro as
  induction as with
  | nil => intro bs h; cases bs <;> simp_all [keyLtGo]
  | cons c cs ih =>
    intro bs h
    cases bs with
    | nil => simp [keyLtGo] at h
    | cons d ds =>
      simp only [keyLtGo] at h
      rcases lt_trichotomy c d with hcd | hcd | hcd
      · exact fun he => absurd ((List.cons.inj he).1 ▸ hcd) (lt_irrefl d)
      · subst hcd
        simp only [lt_irrefl, if_false] at h
        exact fun he => ih ds h (List.cons.inj he).2
      · simp [hcd, not_lt_of_gt hcd] at h

theorem keyLt_asymm (a b : String) (h : keyLt a b = true) : keyLt b a = false :=
  keyLtGo_asymm _ _ h

theorem keyLt_ne (a b : String) (h : keyLt a b = true) : a ≠ b :=
  fun he => keyLtGo_ne a.data b.data h (congrArg String.data he)

theorem mapInsert_ne_nil {α : Type} (l : List (String × α)) (k : String) (v : α) :
    mapInsert l k v ≠ [] := by
  cases l with
  | nil => simp [mapInsert]
  | cons p rest =>
    obtain ⟨q, w⟩ := p
    simp only [mapInsert]
    split_ifs <;> simp

theorem keyLtGo_irrefl : ∀ as, keyLtGo as as = false := by
  intro as
  induction as with
  | nil => rfl
  | cons c cs ih => simp [keyLtGo, lt_irrefl, ih]

theorem keyLt_irrefl (a : String) : keyLt a a = false := keyLtGo_irrefl a.data

theorem lookup_mapInsert_self {α : Type} (l : List (String × α)) (k : String) (v : α) :
    (mapInsert l k v).lookup k = some v := by
  induction l with
  | nil => simp [mapInsert, List.lookup]
  | cons p rest ih =>
    obtain ⟨q, w⟩ := p
    by_cases heq : k = q
    · subst heq
      simp [mapInsert, keyLt_irrefl, List.lookup]
    · have hbq : (k == q) = false := beq_eq_false_iff_ne.2 heq
      by_cases hlt : keyLt k q
      · simp [mapInsert, hlt, List.lookup]
      · simp [mapInsert, hlt, heq, List.lookup, hbq, ih]

theorem lookup_mapInsert_ne {α : Type} (l : List (String × α)) (k k2 : String)
    (v : α) (hne : k2 ≠ k) : (mapInsert l k v).lookup k2 = l.lookup k2 := by
  have hbq : (k2 == k) = false := beq_eq_false_iff_ne.2 hne
  induction l with
  | nil => simp [mapInsert, List.lookup, hbq]
  | cons p rest ih =>
    obtain ⟨q, w⟩ := p
    by_cases hlt : keyLt k q
    · simp [mapInsert, hlt, List.lookup, hbq]
    · by_cases heq : k = q
      · subst heq
        simp [mapInsert, hlt, List.lookup, hbq]
      · cases hqq : (k2 == q) <;> simp [mapInsert, hlt, heq, List.lookup, hqq, ih]

theorem noNL_append {a b : String} (ha : noNL a) (hb : noNL b) : noNL (a ++ b) := by
  intro h
  rw [dataAppend] at h
  rcases List.mem_append.1 h with h2 | h2
  · exact ha h2
  · exact hb h2

theorem noNL_hexDigit (n : Nat) : hexDigit n ≠ '\n' := by
  rcases Nat.lt_or_ge n 16 with h | h
  · interval_cases n <;> decide
  · unfold hexDigit
    rw [List.getD_eq_default]
    · decide
    · simpa [hexDigits] using h

theorem noNL_singletonChar (c : Char) (h : c ≠ '\n') : noNL (String.singleton c) := by
  intro hm
  exact h (List.mem_singleton.1 hm).symm

theorem noNL_escChar (c : Char) : noNL (escChar c) := by
  unfold escChar
  split_ifs with h1 h2 h3 h4 h5 h6
  · decide
  · decide
  · decide
  · decide
  · decide
  · refine noNL_append (noNL_append (by decide) ?_) ?_
    · exact noNL_singletonChar _ (noNL_hexDigit _)
    · exact noNL_singletonChar _ (noNL_hexDigit _)
  · refine noNL_singletonChar _ ?_
    intro he
    exact h6 (by rw [he]; decide)

theorem noNL_concat : ∀ l : List String, (∀ x ∈ l, noNL x) → noNL (concatStrs l) := by
  intro l
  induction l with
  | nil => intro _; simp [concatStrs, noNL]
  | cons x xs ih =>
    intro h
    exact noNL_append (h x (by simp)) (ih fun y hy => h y (by simp [hy]))

theorem noNL_escStr (s : String) : noNL (escStr s) := by
  refine noNL_concat _ ?_
  intro x hx
  rcases List.mem_map.1 hx with ⟨c, _, rfl⟩
  exact noNL_escChar c

theorem noNL_renderStr (s : String) : noNL (renderStr s) :=
  noNL_append (noNL_append (by decide) (noNL_escStr s)) (by decide)

theorem noNL_joinSep (sep : String) (hsep : noNL sep) :
    ∀ l : List String, (∀ x ∈ l, noNL x) → noNL (joinSep sep l) := by
  intro l
  induction l with
  | nil => intro _; simp [joinSep, noNL]
  | cons x xs ih =>
    intro h
    cases xs with
    | nil => simpa [joinSep] using h x (by simp)
    | cons y ys =>
      simp only [joinSep]
      exact noNL_append (noNL_append (h x (by simp)) hsep)
        (ih fun z hz => h z (by simp at hz; simp [hz]))

theorem noNL_renderKVs (kvs : List (String × String)) : noNL (renderKVs kvs) := by
  refine noNL_append (noNL_append (by decide) ?_) (by decide)
  refine noNL_joinSep "," (by decide) _ ?_
  intro x hx
  rcases List.mem_map.1 hx with ⟨p, _, rfl⟩
  exact noNL_append (noNL_append (noNL_renderStr p.1) (by decide)) (noNL_renderStr p.2)

theorem noNL_renderVal (jv : JsonVal) : noNL (renderVal jv) := by
  cases jv with
  | str s => exact noNL_renderStr s
  | obj kvs => exact noNL_renderKVs kvs

theorem noNL_renderObj (obj : JsonObj) : noNL (renderObj obj) := by
  refine noNL_append (noNL_append (by decide) ?_) (by decide)
  refine noNL_joinSep "," (by decide) _ ?_
  intro x hx
  rcases List.mem_map.1 hx with ⟨p, _, rfl⟩
  exact noNL_append (noNL_append (noNL_renderStr p.1) (by decide)) (noNL_renderVal p.2)

theorem lookup_tsAugment_ne (ts : TimestampMode) (now : String) (obj : JsonObj)
    (k : String) (hk : k ≠ "timestamp") :
    (tsAugment ts now obj).lookup k = obj.lookup k := by
  cases ts <;> simp [tsAugment, lookup_mapInsert_ne _ _ _ _ hk]

theorem lookup_fieldsAugment_ne (f : Option Fields) (obj : JsonObj)
    (k : String) (hk : k ≠ "fields") :
    (fieldsAugment f obj).lookup k = obj.lookup k := by
  cases f with
  | none => rfl
  | some g =>
    by_cases hg : g.isEmpty <;> simp [fieldsAugment, hg, lookup_mapInsert_ne _ _ _ _ hk]

theorem emitJsonObj_lookup_level (ts : TimestampMode) (now : String)
    (lvl : LogLevel) (msg : String) (f : Option Fields) :
    (emitJsonObj ts now lvl msg f).lookup "level" = some (.str lvl.asStr) := by
  unfold emitJsonObj
  rw [lookup_fieldsAugment_ne _ _ _ (by decide), lookup_tsAugment_ne _ _ _ _ (by decide),
    lookup_mapInsert_ne _ _ _ _ (by decide)]
  exact lookup_mapInsert_self _ _ _

theorem emitJsonObj_lookup_message (ts : TimestampMode) (now : String)
    (lvl : LogLevel) (msg : String) (f : Option Fields) :
    (emitJsonObj ts now lvl msg f).lookup "message" = some (.str msg) := by
  unfold emitJsonObj
  rw [lookup_fieldsAugment_ne _ _ _ (by decide), lookup_tsAugment_ne _ _ _ _ (by decide)]
  exact lookup_mapInsert_self _ _ _

theorem emitJsonObj_lookup_ts_disabled (now : String)
    (lvl : LogLevel) (msg : String) (f : Option Fields) :
    (emitJsonObj .disabled now lvl msg f).lookup "timestamp" = none := by
  unfold emitJsonObj
  rw [lookup_fieldsAugment_ne _ _ _ (by decide)]
  show (mapInsert (mapInsert [] "level" (.str lvl.asStr)) "message" (.str msg)).lookup
    "timestamp" = none
  rw [lookup_mapInsert_ne _ _ _ _ (by decide), lookup_mapInsert_ne _ _ _ _ (by decide)]
  rfl

theorem emitJsonObj_lookup_fields (ts : TimestampMode) (now : String)
    (lvl : LogLevel) (msg : String) (g : Fields) (hg : g ≠ []) :
    (emitJsonObj ts now lvl msg (some g)).lookup "fields" = some (.obj g) := by
  have hie : g.isEmpty = false := by
    cases g with
    | nil => exact absurd rfl hg
    | cons a l => rfl
  simp only [emitJsonObj, fieldsAugment, hie]
  rw [if_neg (by simp)]
  exact lookup_mapInsert_self _ _ _

theorem emitJsonObj_lookup_fields_empty (ts : TimestampMode) (now : String)
    (lvl : LogLevel) (msg : String) :
    (emitJsonObj ts now lvl msg (some [])).lookup "fields" = none := by
  simp only [emitJsonObj, fieldsAugment]
  rw [if_pos (show ([] : Fields).isEmpty = true from rfl)]
  rw [lookup_tsAugment_ne _ _ _ _ (by decide), lookup_mapInsert_ne _ _ _ _ (by decide),
    lookup_mapInsert_ne _ _ _ _ (by decide)]
  rfl

theorem closeTaskText_state (P : Printer) (nowI : Nat) (s : String) (st : PrinterState) :
    (P.closeTaskText nowI s st).2 = ⟨st.tasks.tail, []⟩ := by
  obtain ⟨tasks, steps⟩ := st
  cases tasks <;> simp [Printer.closeTaskText]

theorem closeTaskText_count (P : Printer) (nowI : Nat) (s : String) (st : PrinterState) :
    (P.closeTaskText nowI s st).1.countP isOutroRender = 1 := by
  obtain ⟨tasks, steps⟩ := st
  cases tasks <;> cases hv : isverbose P.verbosity <;>
    simp [Printer.closeTaskText, hv, isOutroRender, List.countP_cons]

theorem outro_text (P : Printer) (hf : P.format = .text) (nowI : Nat)
    (nowTs m : String) (st : PrinterState) :
    P.outro nowI nowTs m st = P.closeTaskText nowI (P.inner.outro_raw m) st := by
  simp [Printer.outro, FormatLogger.outro, hf]

theorem done_text (P : Printer) (hf : P.format = .text) (nowI : Nat)
    (nowTs : String) (st : PrinterState) :
    P.done nowI nowTs st = P.closeTaskText nowI P.inner.done_raw st := by
  simp [Printer.done, FormatLogger.done, hf]

/-! ## Claims -/

/-- C10: for every verbosity (including Quiet) and every output format, a
call to intro(m) pushes exactly one task record labeled m onto the task
stack (and leaves the step stack alone), even though under Quiet the intro
message itself is suppressed and nothing is printed. -/
theorem claim_C10 (nc : Bool) (fmt : LogFormat) (v : Verbosity) (ts : TimestampMode)
    (nowI : Nat) (nowTs m : String) (st : PrinterState) :
    ((Printer.intro ⟨SimpleLogger nc, fmt, v, ts⟩ nowI nowTs m st).2.tasks
      = ⟨nowI, m⟩ :: st.tasks) ∧
    ((Printer.intro ⟨SimpleLogger nc, fmt, v, ts⟩ nowI nowTs m st).2.steps = st.steps) ∧
    (v = .quiet → (Printer.intro ⟨SimpleLogger nc, fmt, v, ts⟩ nowI nowTs m st).1 = []) := by
  refine ⟨rfl, rfl, ?_⟩
  intro hv
  subst hv
  simp [Printer.intro, FormatLogger.intro, isquiet]

theorem claim_C10_witness :
    ((Printer.intro ⟨SimpleLogger false, .text, .quiet, .disabled⟩ 7 "" "build"
        ⟨[], []⟩).2.tasks = [⟨7, "build"⟩]) ∧
    ((Printer.intro ⟨SimpleLogger false, .text, .quiet, .disabled⟩ 7 "" "build"
        ⟨[], []⟩).1 = []) := by
  have h := claim_C10 false .text .quiet .disabled 7 "" "build" ⟨[], []⟩
  exact ⟨h.1, h.2.2 rfl⟩

/-- C5: a structured event is emitted exactly once: a fresh event dropped
without an explicit emit produces one emit_event call; an explicit emit
followed by the drop glue also produces exactly one; any emission attempt
after the emitted flag is set is a no-op; construction and field chaining
leave the flag unset. -/
theorem claim_C5 (e : LogEvent) (he : e.emitted = false) :
    e.dropCalls.length = 1 ∧
    ((e.emitCalls).1 ++ (e.emitCalls).2.dropCalls).length = 1 ∧
    (∀ e2 : LogEvent, e2.emitted = true → e2.dropCalls = [] ∧ (e2.emitCalls).1 = []) ∧
    (∀ lvl msg, (LogEvent.new lvl msg).emitted = false) ∧
    (∀ k fv, (e.field k fv).emitted = e.emitted) := by
  refine ⟨?_, ?_, ?_, ?_, ?_⟩
  · simp [LogEvent.dropCalls, he]
  · simp [LogEvent.emitCalls, LogEvent.dropCalls, he]
  · intro e2 h2
    simp [LogEvent.dropCalls, LogEvent.emitCalls, h2]
  · intro lvl msg; rfl
  · intro k fv; rfl

theorem claim_C5_witness :
    ((LogEvent.new .info "x").dropCalls.length = 1) ∧
    ((((LogEvent.new .info "x").emitCalls).1
      ++ ((LogEvent.new .info "x").emitCalls).2.dropCalls).length = 1) := by
  have h := claim_C5 (LogEvent.new .info "x") rfl
  exact ⟨h.1, h.2.1⟩

/-- C9 counterexample: inserting "b" first and "a" second, the text-mode
rendering lists a=1 before b=2 — BTreeMap key order, not insertion order —
so the claim's "in insertion order" is false at this input. -/
theorem claim_C9_cex :
    (withTextFields "hello" (some (Fields.insert (Fields.insert [] "b" "2") "a" "1")) =
      "hello \x1b[2ma=1\x1b[0m \x1b[2mb=2\x1b[0m") ∧
    (withTextFields "hello" (some (Fields.insert (Fields.insert [] "b" "2") "a" "1")) ≠
      "hello \x1b[2mb=2\x1b[0m \x1b[2ma=1\x1b[0m") ∧
    (Printer.emitTextFields ⟨SimpleLogger true, .text, .normal, .disabled⟩ .info "hello"
        (some (Fields.insert (Fields.insert [] "b" "2") "a" "1")) =
      [.render .info "  hello \x1b[2ma=1\x1b[0m \x1b[2mb=2\x1b[0m"]) := by
  refine ⟨by decide, by decide, by decide⟩

/-- C9 amended: in Text mode a structured emission with a non-empty fields
map appends the fields as dim-styled key=value pairs joined by single
spaces in ascending key order (the BTreeMap iteration order, independent of
insertion order), and appends nothing when the map is empty. -/
theorem claim_C9_amended (msg k1 v1 k2 v2 : String) (h : keyLt k1 k2 = true) :
    (withTextFields msg (some (Fields.insert (Fields.insert [] k1 v1) k2 v2)) =
      msg ++ " " ++ (dimKV k1 v1 ++ " " ++ dimKV k2 v2)) ∧
    (withTextFields msg (some (Fields.insert (Fields.insert [] k2 v2) k1 v1)) =
      msg ++ " " ++ (dimKV k1 v1 ++ " " ++ dimKV k2 v2)) ∧
    (withTextFields msg (some ([] : Fields)) = msg) ∧
    (withTextFields msg none = msg) := by
  have h1 : keyLt k2 k1 = false := keyLt_asymm _ _ h
  have h2 : k2 ≠ k1 := Ne.symm (keyLt_ne _ _ h)
  refine ⟨?_, ?_, rfl, rfl⟩
  · simp [withTextFields, Fields.insert, mapInsert, h1, h2, joinSep]
  · simp [withTextFields, Fields.insert, mapInsert, h, joinSep]

theorem claim_C9_witness :
    (keyLt "a" "b" = true) ∧
    (withTextFields "m" (some (Fields.insert (Fields.insert [] "a" "1") "b" "2")) =
      "m" ++ " " ++ (dimKV "a" "1" ++ " " ++ dimKV "b" "2")) ∧
    (withTextFields "m" (some (Fields.insert (Fields.insert [] "b" "2") "a" "1")) =
      "m" ++ " " ++ (dimKV "a" "1" ++ " " ++ dimKV "b" "2")) := by
  have h := claim_C9_amended "m" "a" "1" "b" "2" (by decide)
  exact ⟨by decide, h.1, h.2.1⟩

/-- C2 counterexample: with Verbose (not Trace) verbosity and Json format a
dispatcher trace call produces output, refuting that trace(m) produces
output only when the verbosity is exactly Trace in both formats. -/
theorem claim_C2_cex :
    Printer.trace ⟨SimpleLogger false, .json, .verbose, .disabled⟩ "" "x" ≠ [] := by
  decide

/-- C2 amended: debug(m) produces output iff verbosity is Verbose or Trace,
in both formats; the dispatcher trace(m) call likewise produces output iff
verbosity is Verbose or Trace (its formatter gate only requires verbose
mode); the exactly-Trace requirement lives in the structured text emission
path: the trace arm of emit_text_fields emits iff verbosity is exactly
Trace, while its debug arm emits iff verbosity is Verbose or Trace. -/
theorem claim_C2_amended (nc : Bool) (fmt : LogFormat) (v : Verbosity)
    (ts : TimestampMode) (m nowTs : String) (f : Option Fields) :
    (Printer.debug ⟨SimpleLogger nc, fmt, v, ts⟩ nowTs m ≠ [] ↔ isverbose v = true) ∧
    (Printer.trace ⟨SimpleLogger nc, fmt, v, ts⟩ nowTs m ≠ [] ↔ isverbose v = true) ∧
    (Printer.emitTextFields ⟨SimpleLogger nc, fmt, v, ts⟩ .debug m f ≠ []
      ↔ isverbose v = true) ∧
    (Printer.emitTextFields ⟨SimpleLogger nc, fmt, v, ts⟩ .trace m f ≠ [] ↔ v = .trace) := by
  cases v <;> cases fmt <;>
    simp [Printer.debug, Printer.trace, Printer.emitTextFields,
      FormatLogger.debug, FormatLogger.trace, isverbose]

/-- C6 counterexample: in Json format outro never pops the task stack while
intro always pushes, so after intro a; intro b; outro b-done; outro a-done
the task stack is not empty, refuting the claim for every output format. -/
theorem claim_C6_cex :
    (scenarioStacks ⟨SimpleLogger false, .json, .verbose, .disabled⟩ 0 0 0 0 ""
      ⟨[], []⟩).tasks ≠ [] := by
  decide

/-- C6 amended: in Text format, for every verbosity, each outro pops exactly
the most-recently-opened task and clears the whole step stack; after
intro a; intro b; outro b-done; outro a-done both stacks are empty and
dump_tree in verbose/trace mode prints "(no active tasks)"; in Json format
outro leaves the printer state untouched. -/
theorem claim_C6_amended (nc : Bool) (v : Verbosity) (ts : TimestampMode)
    (t1 t2 t3 t4 t5 : Nat) (nowTs : String) (steps0 : List String) :
    ((scenarioStacks ⟨SimpleLogger nc, .text, v, ts⟩ t1 t2 t3 t4 nowTs
      ⟨[], steps0⟩).tasks = []) ∧
    ((scenarioStacks ⟨SimpleLogger nc, .text, v, ts⟩ t1 t2 t3 t4 nowTs
      ⟨[], steps0⟩).steps = []) ∧
    (isverbose v = true →
      Printer.dumpTaskTree ⟨SimpleLogger nc, .text, v, ts⟩ t5
        (scenarioStacks ⟨SimpleLogger nc, .text, v, ts⟩ t1 t2 t3 t4 nowTs ⟨[], steps0⟩)
        = [.plainLine "(no active tasks)"]) ∧
    (∀ (m : String) (st : PrinterState) (t : TimedSpan) (rest : List TimedSpan),
      st.tasks = t :: rest →
      ((Printer.outro ⟨SimpleLogger nc, .text, v, ts⟩ t3 nowTs m st).2.tasks = rest ∧
        (Printer.outro ⟨SimpleLogger nc, .text, v, ts⟩ t3 nowTs m st).2.steps = [])) ∧
    (∀ (m : String) (st : PrinterState),
      (Printer.outro ⟨SimpleLogger nc, .json, v, ts⟩ t3 nowTs m st).2 = st) := by
  have hsc : scenarioStacks ⟨SimpleLogger nc, .text, v, ts⟩ t1 t2 t3 t4 nowTs
      ⟨[], steps0⟩ = ⟨[], []⟩ := by
    simp [scenarioStacks, Printer.intro,
      outro_text ⟨SimpleLogger nc, .text, v, ts⟩ rfl, closeTaskText_state]
  refine ⟨?_, ?_, ?_, ?_, ?_⟩
  · rw [hsc]
  · rw [hsc]
  · intro hv
    rw [hsc]
    simp [Printer.dumpTaskTree, hv]
  · intro m st t rest hst
    rw [outro_text ⟨SimpleLogger nc, .text, v, ts⟩ rfl, closeTaskText_state]
    simp [hst]
  · intro m st
    simp [Printer.outro, FormatLogger.outro]

theorem claim_C6_amended_witness :
    ((scenarioStacks ⟨SimpleLogger false, .text, .verbose, .disabled⟩ 0 1 2 3 ""
      ⟨[], ["s"]⟩).tasks = []) ∧
    (Printer.dumpTaskTree ⟨SimpleLogger false, .text, .verbose, .disabled⟩ 4
        (scenarioStacks ⟨SimpleLogger false, .text, .verbose, .disabled⟩ 0 1 2 3 ""
          ⟨[], ["s"]⟩)
      = [.plainLine "(no active tasks)"]) := by
  have h := claim_C6_amended false .verbose .disabled 0 1 2 3 4 "" ["s"]
  exact ⟨h.1, h.2.2.1 rfl⟩

/-- C7 counterexample: Progress::finish emits an outro closure and then a
done closure — two render_outro task closures, and with two open tasks both
are popped — refuting that finish emits the matching outro/done closure
exactly once (which would leave the outer task open). -/
theorem claim_C7_cex :
    ((Progress.finish ⟨"inner", none, 0, false⟩
        ⟨SimpleLogger false, .text, .normal, .disabled⟩ 0 "" "done"
        ⟨[⟨0, "inner"⟩, ⟨0, "outer"⟩], []⟩).1.countP isOutroRender = 2) ∧
    ((Progress.finish ⟨"inner", none, 0, false⟩
        ⟨SimpleLogger false, .text, .normal, .disabled⟩ 0 "" "done"
        ⟨[⟨0, "inner"⟩, ⟨0, "outer"⟩], []⟩).2.tasks = []) := by
  refine ⟨by decide, by decide⟩

/-- C7 amended: finish(msg) on an unfinished handle first emits the final
progress notification with finished = true and msg as the label, then emits
an outro(msg) closure followed by a done() closure — two render_outro
emissions, popping up to two tasks in Text mode and clearing the steps —
and a handle whose finished flag is set (unreachable, since finish consumes
the handle) does nothing. -/
theorem claim_C7_amended (nc : Bool) (v : Verbosity) (ts : TimestampMode)
    (p : Progress) (msg nowTs : String) (nowI : Nat) (st : PrinterState)
    (hp : p.finished = false) :
    ((Progress.finish p ⟨SimpleLogger nc, .text, v, ts⟩ nowI nowTs msg st).1.head?
      = some (.renderProgress msg p.current p.total true)) ∧
    ((Progress.finish p ⟨SimpleLogger nc, .text, v, ts⟩ nowI nowTs msg st).1.countP
      (fun e => isOutroRender e) = 2) ∧
    ((Progress.finish p ⟨SimpleLogger nc, .text, v, ts⟩ nowI nowTs msg st).2.tasks
      = st.tasks.tail.tail) ∧
    ((Progress.finish p ⟨SimpleLogger nc, .text, v, ts⟩ nowI nowTs msg st).2.steps = []) ∧
    (∀ q : Progress, q.finished = true →
      Progress.finish q ⟨SimpleLogger nc, .text, v, ts⟩ nowI nowTs msg st = ([], st)) := by
  have hout := outro_text ⟨SimpleLogger nc, .text, v, ts⟩ rfl nowI nowTs msg st
  have hdn := done_text ⟨SimpleLogger nc, .text, v, ts⟩ rfl nowI nowTs
  refine ⟨?_, ?_, ?_, ?_, ?_⟩
  · simp [Progress.finish, hp, Printer.progress]
  · have hpr : isOutroRender (Emission.renderProgress msg p.current p.total true) = false :=
      rfl
    simp [Progress.finish, hp, Printer.progress, hout, hdn, List.countP_append,
      List.countP_cons, hpr, closeTaskText_count]
  · simp [Progress.finish, hp, hout, hdn, closeTaskText_state]
  · simp [Progress.finish, hp, hout, hdn, closeTaskText_state]
  · intro q hq
    simp [Progress.finish, hq]

theorem claim_C7_amended_witness :
    ((Progress.finish ⟨"sync", none, 3, false⟩
        ⟨SimpleLogger false, .text, .normal, .disabled⟩ 0 "" "finished"
        ⟨[⟨0, "sync"⟩], []⟩).1.head? = some (.renderProgress "finished" 3 none true)) ∧
    ((Progress.finish ⟨"sync", none, 3, false⟩
        ⟨SimpleLogger false, .text, .normal, .disabled⟩ 0 "" "finished"
        ⟨[⟨0, "sync"⟩], []⟩).1.countP isOutroRender = 2) := by
  have h := claim_C7_amended false .normal .disabled ⟨"sync", none, 3, false⟩
    "finished" "" 0 ⟨[⟨0, "sync"⟩], []⟩ rfl
  exact ⟨h.1, h.2.1⟩

/-- C8: closing a task via outro in Text mode renders the outro message with
the timing suffix " (took {duration})" exactly when the elapsed time has a
non-zero millisecond count, and the duration is printed as seconds to one
decimal place with an s suffix iff the elapsed time is at least one second
(one second being 1000000000 nanoseconds), as whole milliseconds with an ms
suffix otherwise. -/
theorem claim_C8 (nc : Bool) (v : Verbosity) (ts : TimestampMode) (m nowTs : String)
    (st : PrinterState) (t : TimedSpan) (rest : List TimedSpan) (nowI : Nat)
    (hst : st.tasks = t :: rest) :
    ((Printer.outro ⟨SimpleLogger nc, .text, v, ts⟩ nowI nowTs m st).1.head? =
      some (.render .outro
        (if durMillis (nowI - t.start) > 0 then
          (SimpleLogger nc).outro_raw m ++ " (took " ++ formatDuration (nowI - t.start) ++ ")"
        else (SimpleLogger nc).outro_raw m))) ∧
    (0 < durSecs (nowI - t.start) ↔ 1000000000 ≤ nowI - t.start) ∧
    (1000000000 ≤ nowI - t.start →
      formatDuration (nowI - t.start) = secs1dp (nowI - t.start) ++ "s") ∧
    (nowI - t.start < 1000000000 →
      formatDuration (nowI - t.start) = toString (durMillis (nowI - t.start)) ++ "ms") ∧
    (durMillis (nowI - t.start) = 0 →
      (Printer.outro ⟨SimpleLogger nc, .text, v, ts⟩ nowI nowTs m st).1.head? =
        some (.render .outro ((SimpleLogger nc).outro_raw m))) := by
  have hsec : 0 < durSecs (nowI - t.start) ↔ 1000000000 ≤ nowI - t.start := by
    constructor
    · intro h
      by_contra hc
      rw [not_le] at hc
      rw [durSecs, Nat.div_eq_of_lt hc] at h
      exact absurd h (lt_irrefl 0)
    · intro h
      exact Nat.div_pos h (by norm_num)
  have hhead : (Printer.outro ⟨SimpleLogger nc, .text, v, ts⟩ nowI nowTs m st).1.head? =
      some (.render .outro
        (if durMillis (nowI - t.start) > 0 then
          (SimpleLogger nc).outro_raw m ++ " (took " ++ formatDuration (nowI - t.start) ++ ")"
        else (SimpleLogger nc).outro_raw m)) := by
    rw [outro_text ⟨SimpleLogger nc, .text, v, ts⟩ rfl]
    obtain ⟨tasks, steps⟩ := st
    simp only at hst
    subst hst
    cases hv : isverbose v <;> simp [Printer.closeTaskText, hv]
  refine ⟨hhead, hsec, ?_, ?_, ?_⟩
  · intro h
    rw [formatDuration, if_pos (hsec.2 h)]
  · intro h
    rw [formatDuration, if_neg ?_]
    intro hp
    exact absurd (hsec.1 hp) (not_le.2 h)
  · intro h
    rw [hhead, if_neg (by rw [h]; exact lt_irrefl 0)]

theorem claim_C8_witness :
    ((Printer.outro ⟨SimpleLogger false, .text, .normal, .disabled⟩ 2500000000 "" "done"
        ⟨[⟨0, "T"⟩], []⟩).1.head? = some (.render .outro "✓ done (took 2.5s)")) ∧
    ((Printer.outro ⟨SimpleLogger false, .text, .normal, .disabled⟩ 300000 "" "done"
        ⟨[⟨0, "T"⟩], []⟩).1.head? = some (.render .outro "✓ done")) := by
  have h1 := claim_C8 false .normal .disabled "done" "" ⟨[⟨0, "T"⟩], []⟩ ⟨0, "T"⟩ []
    2500000000 rfl
  have h2 := claim_C8 false .normal .disabled "done" "" ⟨[⟨0, "T"⟩], []⟩ ⟨0, "T"⟩ []
    300000 rfl
  constructor
  · rw [h1.1]; decide
  · rw [h2.2.2.2.2 (by decide)]; decide

/-- C1: under Quiet verbosity the dispatcher calls ok, warn, info, dim,
intro, step, debug and trace produce no output at all (in particular none on
stdout): the formatter suppresses them and nothing is rendered; err always
produces output, every emission of it is on the error stream and carries the
message m, for every verbosity and both formats.  The hypothesis states that
the formatter's raw error string embeds the message, as both concrete
formatters do. -/
theorem claim_C1 (F : FormatLogger) (fmt : LogFormat) (ts : TimestampMode)
    (m nowTs : String) (nowI : Nat) (st : PrinterState)
    (herr : ∀ x : String, ∃ p : String, F.err_raw x = p ++ x) :
    (Printer.ok ⟨F, fmt, .quiet, ts⟩ nowTs m = []) ∧
    (Printer.warn ⟨F, fmt, .quiet, ts⟩ nowTs m = []) ∧
    (Printer.info ⟨F, fmt, .quiet, ts⟩ nowTs m = []) ∧
    (Printer.dim ⟨F, fmt, .quiet, ts⟩ nowTs m = []) ∧
    ((Printer.intro ⟨F, fmt, .quiet, ts⟩ nowI nowTs m st).1 = []) ∧
    ((Printer.step ⟨F, fmt, .quiet, ts⟩ nowTs m st).1 = []) ∧
    (Printer.debug ⟨F, fmt, .quiet, ts⟩ nowTs m = []) ∧
    (Printer.trace ⟨F, fmt, .quiet, ts⟩ nowTs m = []) ∧
    (∀ v : Verbosity,
      Printer.err ⟨F, fmt, v, ts⟩ nowTs m ≠ [] ∧
      ∀ e ∈ Printer.err ⟨F, fmt, v, ts⟩ nowTs m,
        e.stream = .stderr ∧ e.mentions m) := by
  obtain ⟨p0, hp0⟩ := herr m
  have hmention : F.err m = p0 ++ m ++ "" := by
    show F.err_raw m = p0 ++ m ++ ""
    rw [hp0, strAppendEmpty]
  refine ⟨?_, ?_, ?_, ?_, ?_, ?_, ?_, ?_, ?_⟩
  · simp [Printer.ok, FormatLogger.ok, isquiet]
  · simp [Printer.warn, FormatLogger.warn, isquiet]
  · simp [Printer.info, FormatLogger.info, isquiet]
  · simp [Printer.dim, FormatLogger.dim, isquiet]
  · simp [Printer.intro, FormatLogger.intro, isquiet]
  · simp [Printer.step, FormatLogger.step, isquiet]
  · simp [Printer.debug, FormatLogger.debug, isverbose]
  · simp [Printer.trace, FormatLogger.trace, isverbose]
  · intro v
    cases fmt
    · refine ⟨by simp [Printer.err], ?_⟩
      intro e he
      simp [Printer.err] at he
      rcases he with he | he <;> subst he
      · exact ⟨rfl, p0, "", hmention⟩
      · exact ⟨rfl, p0, "", hmention⟩
    · refine ⟨by simp [Printer.err], ?_⟩
      intro e he
      simp [Printer.err] at he
      subst he
      refine ⟨rfl, F.err m, p0, "", ?_, hmention⟩
      exact emitJsonObj_lookup_message ts nowTs .error (F.err m) none

theorem claim_C1_witness :
    (Printer.ok ⟨SimpleLogger false, .text, .quiet, .disabled⟩ "" "hi" = []) ∧
    (Printer.trace ⟨SimpleLogger false, .text, .quiet, .disabled⟩ "" "hi" = []) ∧
    (Printer.err ⟨SimpleLogger false, .text, .quiet, .disabled⟩ "" "hi" ≠ []) := by
  have h := claim_C1 (SimpleLogger false) .text .disabled "hi" "" 0 ⟨[], []⟩
    (fun x => ⟨"\x1b[31m✗\x1b[0m ", rfl⟩)
  exact ⟨h.1, h.2.2.2.2.2.2.2.1, (h.2.2.2.2.2.2.2.2 .quiet).1⟩

/-- C3: every JSON emission is one object with at least the level and message
members (holding the level string and the message); it goes to the error
stream exactly when the level is error and to stdout otherwise; the
timestamp member is omitted entirely when timestamping is disabled; and the
rendered object contains no raw newline, so the println writes exactly one
line. -/
theorem claim_C3 (ts : TimestampMode) (nowTs : String) (lvl : LogLevel)
    (msg : String) (f : Option Fields) (F : FormatLogger) (fmt : LogFormat)
    (v : Verbosity) :
    ((emitJsonObj ts nowTs lvl msg f).lookup "level" = some (.str lvl.asStr)) ∧
    ((emitJsonObj ts nowTs lvl msg f).lookup "message" = some (.str msg)) ∧
    (Emission.stream (Printer.emitJson ⟨F, fmt, v, ts⟩ nowTs lvl msg f) = .stderr
      ↔ lvl = .error) ∧
    (lvl ≠ .error →
      Emission.stream (Printer.emitJson ⟨F, fmt, v, ts⟩ nowTs lvl msg f) = .stdout) ∧
    (ts = .disabled → (emitJsonObj ts nowTs lvl msg f).lookup "timestamp" = none) ∧
    noNL (renderObj (emitJsonObj ts nowTs lvl msg f)) := by
  refine ⟨emitJsonObj_lookup_level _ _ _ _ _, emitJsonObj_lookup_message _ _ _ _ _,
    ?_, ?_, ?_, noNL_renderObj _⟩
  · cases lvl <;> simp [Printer.emitJson, Emission.stream, jsonStream]
  · intro h
    cases lvl <;> simp_all [Printer.emitJson, Emission.stream, jsonStream]
  · intro h
    subst h
    exact emitJsonObj_lookup_ts_disabled _ _ _ _

theorem claim_C3_witness :
    ((emitJsonObj .disabled "" .info "hello" none).lookup "level"
      = some (.str "info")) ∧
    ((emitJsonObj .disabled "" .info "hello" none).lookup "message"
      = some (.str "hello")) ∧
    (Emission.stream (Printer.emitJson ⟨ModernLogger, .json, .normal, .disabled⟩ ""
      .info "hello" none) = .stdout) ∧
    ((emitJsonObj .disabled "" .info "hello" none).lookup "timestamp" = none) := by
  have h := claim_C3 .disabled "" .info "hello" none ModernLogger .json .normal
  exact ⟨h.1, h.2.1, h.2.2.2.1 (by decide), h.2.2.2.2.1 rfl⟩

/-- C4: values attached to a structured event are stringified at insertion
and appear as such in the emitted JSON object's fields member (the integer
42 as the string "42"); the fields member is present iff at least one field
was attached: absent for an empty map, present with the full map
otherwise. -/
theorem claim_C4 (v : Verbosity) (ts : TimestampMode) (nowTs msg k1 k2 s2 : String)
    (n : Nat) (hne : k1 ≠ k2) :
    (∃ g : Fields,
      ((((LogEvent.new .info msg).field k1 (.nat n)).field k2 (.str s2)).fields = g) ∧
      (Printer.emitEvent ⟨ModernLogger, .json, v, ts⟩ nowTs .info msg g
        = [.jsonLine .stdout (emitJsonObj ts nowTs .info msg (some g))]) ∧
      ((emitJsonObj ts nowTs .info msg (some g)).lookup "fields" = some (.obj g)) ∧
      (g.lookup k1 = some (toString n)) ∧
      (g.lookup k2 = some s2)) ∧
    (∀ (lvl : LogLevel) (m2 : String),
      (emitJsonObj ts nowTs lvl m2 (some ([] : Fields))).lookup "fields" = none) ∧
    (∀ (lvl : LogLevel) (m2 : String) (g : Fields), g ≠ [] →
      (emitJsonObj ts nowTs lvl m2 (some g)).lookup "fields" = some (.obj g)) := by
  refine ⟨⟨mapInsert (mapInsert [] k1 (toString n)) k2 s2, rfl, rfl, ?_, ?_, ?_⟩, ?_, ?_⟩
  · exact emitJsonObj_lookup_fields _ _ _ _ _ (mapInsert_ne_nil _ _ _)
  · rw [lookup_mapInsert_ne _ _ _ _ hne]
    exact lookup_mapInsert_self _ _ _
  · exact lookup_mapInsert_self _ _ _
  · intro lvl m2
    exact emitJsonObj_lookup_fields_empty _ _ _ _
  · intro lvl m2 g hg
    exact emitJsonObj_lookup_fields _ _ _ _ _ hg

theorem claim_C4_witness :
    ((((LogEvent.new .info "login").field "user_id" (.nat 42)).field "role"
      (.str "admin")).fields.lookup "user_id" = some "42") ∧
    ((((LogEvent.new .info "login").field "user_id" (.nat 42)).field "role"
      (.str "admin")).fields.lookup "role" = some "admin") := by
  have h := claim_C4 .normal .disabled "" "login" "user_id" "role" "admin" 42 (by decide)
  obtain ⟨⟨g, hg, _, _, hk1, hk2⟩, _, _⟩ := h
  constructor
  · rw [hg]; exact hk1
  · rw [hg]; exact hk2

end LogRs
